import Mathlib

/-!
Shallow embedding of `papermill/translators.py`: the translator registry and
the per-language value-to-literal code generation engine.  Python values that
can reach the translators are modelled by the closed `Value` type; the Python
class hierarchy (`Translator` and its seven concrete variants) is modelled by
the closed enumeration `Trans`, and every overridable classmethod becomes a
function dispatching on `Trans`, with the base-class body as the default arm.
Exceptions (`NotImplementedError`, `PapermillException`) are modelled with
`Except TErr`.
-/

namespace Papermill

/-- The universe of values reaching `Translator.translate`
(`translators.py:79-97`): Python `None`, `str`, `bool`, `int`, `float`,
`dict` (string keys, as in the JSON/YAML parameter sources), `list`, and
`other` for any object matching none of the `isinstance` branches.  A float
is carried by its host textual rendering (the text `str(val)` produces);
its numeric value is never inspected by the translators.  `other` likewise
carries the object's `str()` rendering. -/
inductive Value where
  | none
  | str (s : String)
  | bool (b : Bool)
  | int (i : Int)
  | float (repr : String)
  | dict (entries : List (String × Value))
  | list (items : List Value)
  | other (repr : String)

/-- `isinstance(val, type(None))`-style test: `val is None`. -/
def Value.isNoneInst : Value → Bool
  | .none => true
  | _ => false

/-- `isinstance(val, string_types)`. -/
def Value.isStrInst : Value → Bool
  | .str _ => true
  | _ => false

/-- `isinstance(val, bool)`. -/
def Value.isBoolInst : Value → Bool
  | .bool _ => true
  | _ => false

/-- `isinstance(val, integer_types)`.  In Python `bool` is a subclass of
`int`, so a boolean satisfies this test as well; `translators.py:85-88` relies on
testing `bool` first. -/
def Value.isIntInst : Value → Bool
  | .int _ => true
  | .bool _ => true
  | _ => false

/-- `isinstance(val, float)`. -/
def Value.isFloatInst : Value → Bool
  | .float _ => true
  | _ => false

/-- The boolean payload, extracted under the `isinstance(val, bool)` guard. -/
def Value.boolVal : Value → Bool
  | .bool b => b
  | _ => false

/-- The integer payload, extracted under the `isinstance(val, integer_types)`
guard.  A Python `bool` is integer-valued (`int(True) == 1`), mirrored here;
this arm is unreachable from `translate` because the boolean branch is
tested first. -/
def Value.intVal : Value → Int
  | .int i => i
  | .bool b => if b then 1 else 0
  | _ => 0

/-- Python `str(val)` / `f-string` rendering for the scalar values the
translators feed to `translate_raw_str`.  Containers never reach it
(`translate` dispatches them to `translate_dict`/`translate_list` first),
so their rendering is immaterial and left empty. -/
def Value.rawStr : Value → String
  | .none => "None"
  | .str s => s
  | .bool b => if b then "True" else "False"
  | .int i => toString i
  | .float r => r
  | .dict _ => ""
  | .list _ => ""
  | .other r => r

/-- Lowercase hexadecimal digit, as CPython prints in escape sequences. -/
def hexDigit (n : Nat) : Char :=
  if n < 10 then Char.ofNat (48 + n) else Char.ofNat (87 + n)

/-- Two lowercase hex digits of `n % 256`. -/
def hex2 (n : Nat) : String :=
  String.mk [hexDigit (n / 16 % 16), hexDigit (n % 16)]

/-- Four lowercase hex digits. -/
def hex4 (n : Nat) : String :=
  String.mk [hexDigit (n / 4096 % 16), hexDigit (n / 256 % 16),
             hexDigit (n / 16 % 16), hexDigit (n % 16)]

/-- Eight lowercase hex digits. -/
def hex8 (n : Nat) : String :=
  hex4 (n / 65536) ++ hex4 (n % 65536)

/-- One character under CPython's `unicode_escape` codec: backslash doubles,
tab/newline/carriage-return use their mnemonic escapes, other control and
non-ASCII characters use `\xhh`, `\uhhhh` or `\Uhhhhhhhh`, and printable
ASCII passes through.  Quotes are not touched by this codec. -/
def unicodeEscapeChar (c : Char) : String :=
  if c = '\\' then "\\\\"
  else if c = '\t' then "\\t"
  else if c = '\n' then "\\n"
  else if c = '\r' then "\\r"
  else if c.toNat < 0x20 ∨ c.toNat = 0x7f then "\\x" ++ hex2 c.toNat
  else if c.toNat < 0x7f then String.singleton c
  else if c.toNat < 0x100 then "\\x" ++ hex2 c.toNat
  else if c.toNat < 0x10000 then "\\u" ++ hex4 c.toNat
  else "\\U" ++ hex8 c.toNat

/-- `str_val.encode('unicode_escape').decode('utf-8')` from
`translators.py:39-41` (the `sys.version_info >= (3, 0)` branch is taken). -/
def unicodeEscape (s : String) : String :=
  String.join (s.data.map unicodeEscapeChar)

/-- Python `s.replace(c, r)` for a single-character needle `c`. -/
def replaceChar (s : String) (c : Char) (r : String) : String :=
  String.join (s.data.map fun x => if x = c then r else String.singleton x)

/-- Python `str.strip()` whitespace test (ASCII whitespace; the comment
texts fed through `strip` in this module are plain ASCII). -/
def isPySpace (c : Char) : Bool :=
  c = ' ' ∨ c = '\t' ∨ c = '\n' ∨ c = '\r' ∨ c = '\x0b' ∨ c = '\x0c'

/-- Python `str.strip()`: drop whitespace from both ends. -/
def pyStrip (s : String) : String :=
  String.mk (((s.data.dropWhile isPySpace).reverse.dropWhile isPySpace).reverse)

/-- The translator classes of `translators.py`: the abstract base
`Translator` (`base`) and the seven concrete language variants. -/
inductive Trans where
  | base
  | python
  | r
  | scala
  | julia
  | matlab
  | csharp
  | fsharp
deriving DecidableEq

/-- `f'{cls}'`: the Python rendering of the class object, used in the
`NotImplementedError` messages. -/
def clsName : Trans → String
  | .base => "<class 'papermill.translators.Translator'>"
  | .python => "<class 'papermill.translators.PythonTranslator'>"
  | .r => "<class 'papermill.translators.RTranslator'>"
  | .scala => "<class 'papermill.translators.ScalaTranslator'>"
  | .julia => "<class 'papermill.translators.JuliaTranslator'>"
  | .matlab => "<class 'papermill.translators.MatlabTranslator'>"
  | .csharp => "<class 'papermill.translators.CSharpTranslator'>"
  | .fsharp => "<class 'papermill.translators.FSharpTranslator'>"

/-- The exceptions raised in `translators.py`: `NotImplementedError`
(unsupported type / missing override) and `PapermillException`
(registry lookup failure), each carrying its message. -/
inductive TErr where
  | notImplemented (msg : String)
  | papermill (msg : String)
deriving DecidableEq

/-- `Translator.translate_raw_str` (`translators.py:30-33`): `f'{val}'`.
Never overridden. -/
def translate_raw_str (v : Value) : String :=
  Value.rawStr v

/-- `translate_escaped_str` (`translators.py:35-43`), with the Matlab
override (`translators.py:242-250`) which doubles embedded double quotes
instead of backslash-escaping them.  A non-string argument skips the
escaping entirely and is wrapped in double quotes as-is. -/
def translate_escaped_str : Trans → Value → String
  | .matlab, .str s => "\"" ++ replaceChar (unicodeEscape s) '"' "\"\"" ++ "\""
  | _, .str s => "\"" ++ replaceChar (unicodeEscape s) '"' "\\\"" ++ "\""
  | _, v => "\"" ++ translate_raw_str v ++ "\""

/-- `Translator.translate_str` (`translators.py:45-48`): delegates to the
class's `translate_escaped_str`.  Never overridden itself. -/
def translate_str (t : Trans) (v : Value) : String :=
  translate_escaped_str t v

/-- `translate_none` (`translators.py:50-53`) with the R
(`'NULL'`), Julia (`'nothing'`), Matlab (`'NaN'`) and C#
(raises `NotImplementedError`) overrides. -/
def translate_none : Trans → Value → Except TErr String
  | .r, _ => .ok "NULL"
  | .julia, _ => .ok "nothing"
  | .matlab, _ => .ok "NaN"
  | .csharp, _ => .error (.notImplemented "Option type not implemented for C#.")
  | _, v => .ok (translate_raw_str v)

/-- `translate_int` (`translators.py:55-58`) with the Scala, C# and F#
overrides (`translators.py:185-188`, `299-302`, `337-340`): values outside
the signed 32-bit range get an `L` suffix appended to the raw digits. -/
def translate_int (t : Trans) (i : Int) : String :=
  match t with
  | .scala =>
      let strval := translate_raw_str (.int i)
      if i > 2147483647 ∨ i < -2147483648 then strval ++ "L" else strval
  | .csharp =>
      let strval := translate_raw_str (.int i)
      if i > 2147483647 ∨ i < -2147483648 then strval ++ "L" else strval
  | .fsharp =>
      let strval := translate_raw_str (.int i)
      if i > 2147483647 ∨ i < -2147483648 then strval ++ "L" else strval
  | _ => translate_raw_str (.int i)

/-- `translate_float` (`translators.py:60-63`): raw rendering; never
overridden. -/
def translate_float (v : Value) : String :=
  translate_raw_str v

/-- `translate_bool` (`translators.py:65-68`): default is the lowercase
keywords `'true'`/`'false'`; the Python variant overrides to the raw
rendering (`translators.py:116-118`), R to `'TRUE'`/`'FALSE'`
(`translators.py:153-155`); the C# and F# overrides
(`translators.py:295-297`, `333-335`) repeat the default spelling. -/
def translate_bool : Trans → Bool → String
  | .python, b => translate_raw_str (.bool b)
  | .r, b => if b then "TRUE" else "FALSE"
  | .csharp, b => if b then "true" else "false"
  | .fsharp, b => if b then "true" else "false"
  | _, b => if b then "true" else "false"

/-- `MatlabTranslator.__translate_char_array` (`translators.py:252-260`):
unicode-escape, double embedded single quotes, wrap in single quotes. -/
def matlabTranslateCharArray (s : String) : String :=
  "'" ++ replaceChar (unicodeEscape s) '\'' "''" ++ "'"

/-- `comment` (`translators.py:99-101`): no base implementation
(`NotImplementedError` naming the class); each variant wraps the text in its
comment syntax and `strip()`s the result (`translators.py:132-134`,
`172-174`, `207-209`, `236-238`, `277-279`, `319-321`, `357-359`). -/
def comment : Trans → String → Except TErr String
  | .base, _ =>
      .error (.notImplemented
        ("comment translation not implemented for " ++ clsName .base))
  | .python, s => .ok (pyStrip ("# " ++ s))
  | .r, s => .ok (pyStrip ("# " ++ s))
  | .julia, s => .ok (pyStrip ("# " ++ s))
  | .scala, s => .ok (pyStrip ("// " ++ s))
  | .csharp, s => .ok (pyStrip ("// " ++ s))
  | .matlab, s => .ok (pyStrip ("% " ++ s))
  | .fsharp, s => .ok (pyStrip ("(* " ++ s ++ " *)"))

/-- `stripUnderscoresAux` models the loop in `RTranslator.assign`
(`translators.py:178-180`): `while name.startswith('_'): name = name[1:]`,
one leading underscore dropped per iteration. -/
def stripUnderscoresAux : List Char → List Char
  | [] => []
  | c :: rest => if c = '_' then stripUnderscoresAux rest else c :: rest

/-- `assign` (`translators.py:103-105`) with the R underscore-stripping
override (`translators.py:176-181`) and the Scala (`val`), C#
(`var ... ;`) and F# (`let`) keyword overrides (`translators.py:211-213`,
`323-325`, `361-363`). -/
def assign : Trans → String → String → String
  | .r, name, sv => String.mk (stripUnderscoresAux name.data) ++ " = " ++ sv
  | .scala, name, sv => "val " ++ name ++ " = " ++ sv
  | .csharp, name, sv => "var " ++ name ++ " = " ++ sv ++ ";"
  | .fsharp, name, sv => "let " ++ name ++ " = " ++ sv
  | _, name, sv => name ++ " = " ++ sv

mutual

/-- `Translator.translate` (`translators.py:78-97`): dispatch on the value's
runtime type, in source order — `None`, string, then boolean **before**
integer (a Python `bool` passes the integer `isinstance` test), float,
dict, list — and fall back to `translate_escaped_str` for anything else. -/
def translate (t : Trans) (v : Value) : Except TErr String :=
  if Value.isNoneInst v then translate_none t v
  else if Value.isStrInst v then Except.ok (translate_str t v)
  else if Value.isBoolInst v then Except.ok (translate_bool t (Value.boolVal v))
  else if Value.isIntInst v then Except.ok (translate_int t (Value.intVal v))
  else if Value.isFloatInst v then Except.ok (translate_float v)
  else
    match v with
    | .dict es => translate_dict t es
    | .list xs => translate_list t xs
    | w => Except.ok (translate_escaped_str t w)

/-- `translate_dict` (`translators.py:70-72`): the base class raises
`NotImplementedError`; each variant builds its mapping literal from the
translated keys and recursively translated values (`translators.py:120-125`,
`157-165`, `190-199`, `221-229`, `266-270`, `304-311`, `342-350`). -/
def translate_dict (t : Trans) (es : List (String × Value)) : Except TErr String :=
  match t with
  | .base =>
      Except.error (.notImplemented
        ("dict type translation not implemented for " ++ clsName .base))
  | .python => do
      let parts ← translatePairs .python
        (fun k sv => translate_str .python (.str k) ++ ": " ++ sv) es
      Except.ok ("\x7b" ++ String.intercalate ", " parts ++ "\x7d")
  | .r => do
      let parts ← translatePairs .r
        (fun k sv => translate_str .r (.str k) ++ " = " ++ sv) es
      Except.ok ("list(" ++ String.intercalate ", " parts ++ ")")
  | .scala => do
      let parts ← translatePairs .scala
        (fun k sv => translate_str .scala (.str k) ++ " -> " ++ sv) es
      Except.ok ("Map(" ++ String.intercalate ", " parts ++ ")")
  | .julia => do
      let parts ← translatePairs .julia
        (fun k sv => translate_str .julia (.str k) ++ " => " ++ sv) es
      Except.ok ("Dict(" ++ String.intercalate ", " parts ++ ")")
  | .matlab => do
      let vals ← translatePairs .matlab (fun _ sv => sv) es
      Except.ok ("containers.Map(\x7b" ++
        String.intercalate ", " (es.map fun kv => matlabTranslateCharArray kv.1) ++
        "\x7d, \x7b" ++ String.intercalate ", " vals ++ "\x7d)")
  | .csharp => do
      let parts ← translatePairs .csharp
        (fun k sv => "\x7b " ++ translate_str .csharp (.str k) ++ " , " ++ sv ++ " \x7d") es
      Except.ok ("new Dictionary<string,Object>\x7b " ++ String.intercalate ", " parts ++ " \x7d")
  | .fsharp => do
      let parts ← translatePairs .fsharp
        (fun k sv => "(" ++ translate_str .fsharp (.str k) ++ ", " ++ sv ++ " :> IComparable)") es
      Except.ok ("[ " ++ String.intercalate "; " parts ++ " ] |> Map.ofList")

/-- `translate_list` (`translators.py:74-76`): the base class raises
`NotImplementedError`; each variant joins the recursively translated items
in its sequence literal (`translators.py:127-130`, `167-170`, `201-205`,
`231-234`, `272-275`, `313-317`, `352-355`). -/
def translate_list (t : Trans) (xs : List Value) : Except TErr String :=
  match t with
  | .base =>
      Except.error (.notImplemented
        ("list type translation not implemented for " ++ clsName .base))
  | .python => do
      let parts ← translateItems .python xs
      Except.ok ("[" ++ String.intercalate ", " parts ++ "]")
  | .r => do
      let parts ← translateItems .r xs
      Except.ok ("list(" ++ String.intercalate ", " parts ++ ")")
  | .scala => do
      let parts ← translateItems .scala xs
      Except.ok ("Seq(" ++ String.intercalate ", " parts ++ ")")
  | .julia => do
      let parts ← translateItems .julia xs
      Except.ok ("[" ++ String.intercalate ", " parts ++ "]")
  | .matlab => do
      let parts ← translateItems .matlab xs
      Except.ok ("\x7b" ++ String.intercalate ", " parts ++ "\x7d")
  | .csharp => do
      let parts ← translateItems .csharp xs
      Except.ok ("new [] \x7b " ++ String.intercalate ", " parts ++ " \x7d")
  | .fsharp => do
      let parts ← translateItems .fsharp xs
      Except.ok ("[ " ++ String.intercalate "; " parts ++ " ]")

/-- The `', '.join(...)` comprehensions over `val.items()`: translate each
entry's value recursively, rendering each `(key, value)` pair with the
variant's pair format `fmt`; the first failure propagates. -/
def translatePairs (t : Trans) (fmt : String → String → String) :
    List (String × Value) → Except TErr (List String)
  | [] => Except.ok []
  | (k, v) :: es => do
      let sv ← translate t v
      let rest ← translatePairs t fmt es
      Except.ok (fmt k sv :: rest)

/-- The `', '.join(...)` comprehensions over list items: translate each item
recursively; the first failure propagates. -/
def translateItems (t : Trans) : List Value → Except TErr (List String)
  | [] => Except.ok []
  | v :: xs => do
      let sv ← translate t v
      let rest ← translateItems t xs
      Except.ok (sv :: rest)

end

/-- The statement terminator appended after each assignment in `codify`:
`'\n'` in the base implementation (`translators.py:111`), `';\n'` in the
Matlab override (`translators.py:285`), which otherwise repeats the base
loop verbatim. -/
def lineTerm : Trans → String
  | .matlab => ";\n"
  | _ => "\n"

/-- The accumulation loop of `codify` (`translators.py:110-111` and, for
Matlab, `284-285`): one `assign`-produced line per parameter, in iteration
order, each terminated by the variant's line terminator; a translation
failure aborts the whole call. -/
def codifyBody (t : Trans) : List (String × Value) → Except TErr String
  | [] => Except.ok ""
  | (name, val) :: rest => do
      let tv ← translate t val
      let tail ← codifyBody t rest
      Except.ok (assign t name tv ++ lineTerm t ++ tail)

/-- `Translator.codify` (`translators.py:107-112`) and the Matlab override
(`translators.py:281-286`): the `comment('Parameters')` header line, then
the assignment lines.  The Python variant's override
(`translators.py:136-145`) first produces exactly this text and then feeds
it to the external Black formatter; that optional normalization step is an
external library call and is not part of the model — all statements below
about the Python variant concern the pre-normalization text. -/
def codify (t : Trans) (parameters : List (String × Value)) : Except TErr String := do
  let head ← comment t "Parameters"
  let body ← codifyBody t parameters
  Except.ok (head ++ "\n" ++ body)

/-- The registry's backing table (`PapermillTranslators.__init__`,
`translators.py:13-14`): a string-keyed dictionary, modelled as an
association list whose most recent binding for a key shadows older ones. -/
abbrev Registry := List (String × Trans)

/-- `PapermillTranslators.register` (`translators.py:16-17`):
`self._translators[language] = translator` — insert or overwrite. -/
def register (reg : Registry) (language : String) (translator : Trans) : Registry :=
  (language, translator) :: reg

/-- `PapermillTranslators.find_translator` (`translators.py:19-26`): the
kernel name is looked up first, then the language, and if neither is
present a `PapermillException` is raised whose message names both. -/
def find_translator (reg : Registry) (kernel_name language : String) : Except TErr Trans :=
  match reg.lookup kernel_name with
  | some t => Except.ok t
  | Option.none =>
    match reg.lookup language with
    | some t => Except.ok t
    | Option.none =>
        Except.error (.papermill
          ("No parameter translator functions specified for kernel '" ++
            kernel_name ++ "' or language '" ++ language ++ "'"))

/-- The module-level singleton with the built-in registrations
(`translators.py:366-374`). -/
def papermill_translators : Registry :=
  register (register (register (register (register (register (register
    [] "python" .python) "R" .r) "scala" .scala) "julia" .julia)
    "matlab" .matlab) ".net-csharp" .csharp) ".net-fsharp" .fsharp

/-- `translate_parameters` (`translators.py:377-378`). -/
def translate_parameters (kernel_name language : String)
    (parameters : List (String × Value)) : Except TErr String := do
  let t ← find_translator papermill_translators kernel_name language
  codify t parameters

/-- Spec-side rendering (for the refinement claims about `codify`'s shape):
"one `assign(...)`-produced line per parameter, in the parameter set's
iteration order, each line terminated per the variant's convention", as a
list with one entry per parameter. -/
def specAssignLines (t : Trans) : List (String × Value) → Except TErr (List String)
  | [] => Except.ok []
  | (name, val) :: rest => do
      let lit ← translate t val
      let tail ← specAssignLines t rest
      Except.ok ((assign t name lit ++ lineTerm t) :: tail)

instance instDecEqExcept {ε α : Type} [DecidableEq ε] [DecidableEq α] :
    DecidableEq (Except ε α) := fun a b =>
  match a, b with
  | .ok x, .ok y =>
      if h : x = y then .isTrue (by rw [h]) else .isFalse (fun hh => h (by cases hh; rfl))
  | .error e, .error f =>
      if h : e = f then .isTrue (by rw [h]) else .isFalse (fun hh => h (by cases hh; rfl))
  | .ok _, .error _ => .isFalse nofun
  | .error _, .ok _ => .isFalse nofun

theorem string_join_cons (a : String) (l : List String) :
    String.join (a :: l) = a ++ String.join l := by
  apply String.ext
  simp [String.join_eq, String.data_append]

/-- Unfolding `translate` on a `None` value. -/
theorem translate_at_none (t : Trans) :
    translate t Value.none = translate_none t Value.none := by
  rw [Papermill.translate.eq_def]
  rfl

/-- Unfolding `translate` on a string value. -/
theorem translate_at_str (t : Trans) (s : String) :
    translate t (Value.str s) = Except.ok (translate_str t (Value.str s)) := by
  rw [Papermill.translate.eq_def]
  rfl

/-- Unfolding `translate` on a boolean value: the boolean branch is reached. -/
theorem translate_at_bool (t : Trans) (b : Bool) :
    translate t (Value.bool b) = Except.ok (translate_bool t b) := by
  rw [Papermill.translate.eq_def]
  rfl

/-- Unfolding `translate` on an integer value. -/
theorem translate_at_int (t : Trans) (i : Int) :
    translate t (Value.int i) = Except.ok (translate_int t i) := by
  rw [Papermill.translate.eq_def]
  rfl

/-- Unfolding `translate` on a float value. -/
theorem translate_at_float (t : Trans) (r : String) :
    translate t (Value.float r) = Except.ok (translate_float (Value.float r)) := by
  rw [Papermill.translate.eq_def]
  rfl

/-- Unfolding `translate` on a dict value. -/
theorem translate_at_dict (t : Trans) (es : List (String × Value)) :
    translate t (Value.dict es) = translate_dict t es := by
  rw [Papermill.translate.eq_def]
  rfl

/-- Unfolding `translate` on a list value. -/
theorem translate_at_list (t : Trans) (xs : List Value) :
    translate t (Value.list xs) = translate_list t xs := by
  rw [Papermill.translate.eq_def]
  rfl

/-- Unfolding `translate` on a value matching no `isinstance` branch: the
generic escaped-string fallback is taken. -/
theorem translate_at_other (t : Trans) (r : String) :
    translate t (Value.other r) = Except.ok (translate_escaped_str t (Value.other r)) := by
  rw [Papermill.translate.eq_def]
  rfl

/-- A successful `specAssignLines` run produces exactly one line per
parameter. -/
theorem specAssignLines_length (t : Trans) (ps : List (String × Value))
    (lines : List String) (h : specAssignLines t ps = Except.ok lines) :
    lines.length = ps.length := by
  induction ps generalizing lines with
  | nil =>
      simp only [specAssignLines] at h
      cases h
      rfl
  | cons pr rest ih =>
      obtain ⟨n, v⟩ := pr
      simp only [specAssignLines] at h
      cases htv : translate t v with
      | error e => rw [htv] at h; cases h
      | ok lit =>
          rw [htv] at h
          cases hrest : specAssignLines t rest with
          | error e => rw [hrest] at h; cases h
          | ok tail =>
              rw [hrest] at h
              cases h
              simp [ih tail hrest]

/-- The accumulation loop of `codify` concatenates exactly the per-parameter
lines described by `specAssignLines`, failing iff the line list fails. -/
theorem codifyBody_eq_specAssignLines (t : Trans) (ps : List (String × Value)) :
    codifyBody t ps = Except.map String.join (specAssignLines t ps) := by
  induction ps with
  | nil => rfl
  | cons pr rest ih =>
      obtain ⟨n, v⟩ := pr
      simp only [codifyBody, specAssignLines]
      cases htv : translate t v with
      | error e => rfl
      | ok lit =>
          simp only [bind, Except.bind, ih]
          cases hrest : specAssignLines t rest with
          | error e => rfl
          | ok tail =>
              simp [Except.map, string_join_cons, String.append_assoc]

/-- Dropping leading underscores splits the character list into an
all-underscore prefix and the kept remainder. -/
theorem stripUnderscoresAux_replicate (l : List Char) :
    ∃ k, l = List.replicate k '_' ++ stripUnderscoresAux l := by
  induction l with
  | nil => exact ⟨0, rfl⟩
  | cons c rest ih =>
      by_cases hc : c = '_'
      · subst hc
        obtain ⟨k, hk⟩ := ih
        refine ⟨k + 1, ?_⟩
        simp only [stripUnderscoresAux, if_pos rfl, List.replicate_succ, List.cons_append]
        exact congrArg _ hk
      · exact ⟨0, by simp [stripUnderscoresAux, hc]⟩

/-- After dropping leading underscores the result never starts with an
underscore. -/
theorem stripUnderscoresAux_no_leading (l : List Char) :
    ∀ rest, stripUnderscoresAux l ≠ '_' :: rest := by
  induction l with
  | nil => intro rest h; cases h
  | cons c cs ih =>
      intro rest h
      by_cases hc : c = '_'
      · subst hc
        rw [stripUnderscoresAux, if_pos rfl] at h
        exact ih rest h
      · rw [stripUnderscoresAux, if_neg hc] at h
        cases h
        exact hc rfl

/-- Every variant's line terminator ends with a newline character. -/
theorem lineTerm_ends_newline (t : Trans) : ∃ q, lineTerm t = q ++ "\n" := by
  cases t
  case matlab => exact ⟨";", rfl⟩
  all_goals exact ⟨"", rfl⟩

/-- A successful `codifyBody` run is empty (no parameters) or ends with a
newline. -/
theorem codifyBody_empty_or_ends_newline (t : Trans) (ps : List (String × Value))
    (b : String) (h : codifyBody t ps = Except.ok b) :
    b = "" ∨ ∃ p, b = p ++ "\n" := by
  induction ps generalizing b with
  | nil =>
      simp only [codifyBody] at h
      cases h
      exact Or.inl rfl
  | cons pr rest ih =>
      obtain ⟨n, v⟩ := pr
      simp only [codifyBody, bind, Except.bind] at h
      cases htv : translate t v with
      | error e => rw [htv] at h; cases h
      | ok lit =>
          rw [htv] at h
          cases hrest : codifyBody t rest with
          | error e => rw [hrest] at h; cases h
          | ok tail =>
              rw [hrest] at h
              cases h
              obtain ⟨q, hq⟩ := lineTerm_ends_newline t
              rcases ih tail hrest with h0 | ⟨p, hp⟩
              · subst h0
                refine Or.inr ⟨assign t n lit ++ q, ?_⟩
                rw [hq]
                simp [String.append_assoc, String.append_empty]
              · subst hp
                refine Or.inr ⟨assign t n lit ++ (lineTerm t ++ p), ?_⟩
                simp [String.append_assoc]

/-- C1: for every translator and every ordered parameter set, a `codify`
call that returns yields `comment("Parameters")` followed by exactly one
`assign`-produced, terminator-ended line per parameter, in the parameter
set's insertion order; concretely, the Python-like variant turns
`{"alpha": 1, "beta": "x"}` into the block whose lines are `# Parameters`,
`alpha = 1`, `beta = "x"` (before the optional Black normalization). -/
theorem codify_is_header_then_one_line_per_parameter (t : Trans)
    (ps : List (String × Value)) (s : String) (h : codify t ps = Except.ok s) :
    (∃ c lines, comment t "Parameters" = Except.ok c ∧
      specAssignLines t ps = Except.ok lines ∧ lines.length = ps.length ∧
      s = c ++ "\n" ++ String.join lines) ∧
    codify Trans.python [("alpha", Value.int 1), ("beta", Value.str "x")] =
      Except.ok "# Parameters\nalpha = 1\nbeta = \"x\"\n" := by
  constructor
  · simp only [codify, bind, Except.bind] at h
    cases hc : comment t "Parameters" with
    | error e => rw [hc] at h; cases h
    | ok c =>
        rw [hc] at h
        rw [codifyBody_eq_specAssignLines] at h
        cases hl : specAssignLines t ps with
        | error e => rw [hl] at h; cases h
        | ok lines =>
            rw [hl] at h
            simp only [Except.map] at h
            cases h
            exact ⟨c, lines, rfl, rfl, specAssignLines_length t ps lines hl, rfl⟩
  · simp [codify, codifyBody, Papermill.translate.eq_def]
    rfl

/-- C1 witness: the structure theorem instantiated at the Python-like
variant on `{"alpha": 1, "beta": "x"}`. -/
theorem codify_is_header_then_one_line_per_parameter_witness :
    (∃ c lines, comment Trans.python "Parameters" = Except.ok c ∧
      specAssignLines Trans.python [("alpha", Value.int 1), ("beta", Value.str "x")] =
        Except.ok lines ∧
      lines.length = ([("alpha", Value.int 1), ("beta", Value.str "x")] :
        List (String × Value)).length ∧
      "# Parameters\nalpha = 1\nbeta = \"x\"\n" = c ++ "\n" ++ String.join lines) ∧
    codify Trans.python [("alpha", Value.int 1), ("beta", Value.str "x")] =
      Except.ok "# Parameters\nalpha = 1\nbeta = \"x\"\n" :=
  codify_is_header_then_one_line_per_parameter Trans.python
    [("alpha", Value.int 1), ("beta", Value.str "x")]
    "# Parameters\nalpha = 1\nbeta = \"x\"\n"
    (by simp [codify, codifyBody, Papermill.translate.eq_def]; rfl)

/-- C2: `find_translator` returns the translator registered under the kernel
name when that key is present, otherwise the one registered under the
language, and when neither key is present it fails with the exception whose
message names both the attempted kernel name and the attempted language. -/
theorem find_translator_two_level_lookup (reg : Registry) (k l : String) :
    (∀ t, reg.lookup k = some t → find_translator reg k l = Except.ok t) ∧
    (reg.lookup k = Option.none → ∀ t, reg.lookup l = some t →
      find_translator reg k l = Except.ok t) ∧
    (reg.lookup k = Option.none → reg.lookup l = Option.none →
      find_translator reg k l = Except.error (.papermill
        ("No parameter translator functions specified for kernel '" ++ k ++
          "' or language '" ++ l ++ "'"))) := by
  refine ⟨?_, ?_, ?_⟩
  · intro t ht
    simp [find_translator, ht]
  · intro hk t hl
    simp [find_translator, hk, hl]
  · intro hk hl
    simp [find_translator, hk, hl]

/-- C2 witness: direct hit, language fallback, and the double-miss failure
naming both `nope` and `nowhere`. -/
theorem find_translator_two_level_lookup_witness :
    find_translator [("python", Trans.python)] "python" "x" = Except.ok Trans.python ∧
    find_translator [("python", Trans.python)] "nope" "python" = Except.ok Trans.python ∧
    find_translator [] "nope" "nowhere" = Except.error (.papermill
      "No parameter translator functions specified for kernel 'nope' or language 'nowhere'") :=
  ⟨(find_translator_two_level_lookup [("python", Trans.python)] "python" "x").1
      Trans.python (by decide),
   (find_translator_two_level_lookup [("python", Trans.python)] "nope" "python").2.1
      (by decide) Trans.python (by decide),
   (find_translator_two_level_lookup [] "nope" "nowhere").2.2 rfl rfl⟩

/-- C3: for every variant and every boolean, `translate` dispatches to the
boolean branch (`translate_bool`) even though the value also passes the
integer `isinstance` test (a Python boolean is a zero/one-valued integer);
the Python-like variant shows the two branches differ observably. -/
theorem translate_routes_bool_before_int (t : Trans) (b : Bool) :
    translate t (Value.bool b) = Except.ok (translate_bool t b) ∧
    Value.isIntInst (Value.bool b) = true ∧
    translate_bool Trans.python true ≠ translate_int Trans.python 1 :=
  ⟨translate_at_bool t b, rfl, by decide⟩

/-- C4: for the Scala-like, C#-like and F#-like variants, `translate_int`
renders the signed-32-bit boundary values `2147483647` and `-2147483648` as
raw digits with no suffix and the first values beyond the boundary,
`2147483648` and `-2147483649`, with the wide-integer `L` suffix; in
particular the Scala-like variant renders `3000000000` as `3000000000L`. -/
theorem translate_int_wide_suffix_boundary :
    (translate_int Trans.scala 2147483647 = "2147483647" ∧
     translate_int Trans.scala (-2147483648) = "-2147483648" ∧
     translate_int Trans.scala 2147483648 = "2147483648L" ∧
     translate_int Trans.scala (-2147483649) = "-2147483649L") ∧
    (translate_int Trans.csharp 2147483647 = "2147483647" ∧
     translate_int Trans.csharp (-2147483648) = "-2147483648" ∧
     translate_int Trans.csharp 2147483648 = "2147483648L" ∧
     translate_int Trans.csharp (-2147483649) = "-2147483649L") ∧
    (translate_int Trans.fsharp 2147483647 = "2147483647" ∧
     translate_int Trans.fsharp (-2147483648) = "-2147483648" ∧
     translate_int Trans.fsharp 2147483648 = "2147483648L" ∧
     translate_int Trans.fsharp (-2147483649) = "-2147483649L") ∧
    translate_int Trans.scala 3000000000 = "3000000000L" := by
  decide

/-- C5: on the default `Translator` contract, `translate` of a dict or list
fails with the not-implemented error naming the type and the concrete class,
while `translate` of a value matching no `isinstance` branch never fails and
falls back to the escaped-string form of the value's textual
representation — for every variant. -/
theorem default_composites_fail_unknown_tags_fall_back
    (es : List (String × Value)) (xs : List Value) (t : Trans) (r : String) :
    translate Trans.base (Value.dict es) = Except.error (.notImplemented
      ("dict type translation not implemented for " ++ clsName Trans.base)) ∧
    translate Trans.base (Value.list xs) = Except.error (.notImplemented
      ("list type translation not implemented for " ++ clsName Trans.base)) ∧
    translate t (Value.other r) =
      Except.ok (translate_escaped_str t (Value.other r)) ∧
    translate t (Value.other r) = Except.ok ("\"" ++ r ++ "\"") := by
  refine ⟨?_, ?_, translate_at_other t r, ?_⟩
  · rw [translate_at_dict, Papermill.translate_dict.eq_def]
  · rw [translate_at_list, Papermill.translate_list.eq_def]
  · rw [translate_at_other]
    cases t <;> rfl

/-- C6: after `register(k, t)`, `find_translator` on kernel key `k` returns
`t` regardless of the second argument (the language fallback is bypassed),
the entry under `k` is overwritten (last registration wins), and entries
under other keys are untouched. -/
theorem register_overwrites_and_kernel_key_wins (reg : Registry) (k a : String)
    (t : Trans) :
    find_translator (register reg k t) k a = Except.ok t ∧
    (register reg k t).lookup k = some t ∧
    (∀ k2, k2 ≠ k → (register reg k t).lookup k2 = reg.lookup k2) := by
  refine ⟨?_, ?_, ?_⟩
  · simp [find_translator, register, List.lookup]
  · simp [register, List.lookup]
  · intro k2 h2
    have hb : (k2 == k) = false := beq_eq_false_iff_ne.mpr h2
    simp [register, List.lookup, hb]

/-- C6 witness: registering under `k` and looking `k` up with an unrelated
second argument, plus untouched lookup of a different key. -/
theorem register_overwrites_and_kernel_key_wins_witness :
    find_translator (register [] "k" Trans.r) "k" "anything" = Except.ok Trans.r ∧
    (register [("k", Trans.python)] "k" Trans.r).lookup "q" =
      ([("k", Trans.python)] : Registry).lookup "q" :=
  ⟨(register_overwrites_and_kernel_key_wins [] "k" "anything" Trans.r).1,
   (register_overwrites_and_kernel_key_wins [("k", Trans.python)] "k" "anything"
      Trans.r).2.2 "q" (by decide)⟩

/-- C7 counterexample: the default `translate_bool` renders `True` as the
lowercase keyword `"true"`, which differs from the raw textual rendering
`"True"` used by the numeric/null defaults — so the default is not the raw
rendering. -/
theorem default_bool_is_keyword_not_raw :
    translate_bool Trans.base true = "true" ∧
    translate_raw_str (Value.bool true) = "True" ∧
    translate_bool Trans.base true ≠ translate_raw_str (Value.bool true) := by
  decide

/-- C7 amended: the default `translate_bool` renders booleans as the
lowercase keywords `true`/`false`; the Python-like variant overrides it to
the raw textual rendering (`True`/`False`), the R-like variant to
`TRUE`/`FALSE`, and the C#-like and F#-like variants restate the lowercase
keyword spelling. -/
theorem translate_bool_default_and_overrides (b : Bool) :
    translate_bool Trans.base b = (if b then "true" else "false") ∧
    translate_bool Trans.scala b = (if b then "true" else "false") ∧
    translate_bool Trans.julia b = (if b then "true" else "false") ∧
    translate_bool Trans.matlab b = (if b then "true" else "false") ∧
    translate_bool Trans.csharp b = (if b then "true" else "false") ∧
    translate_bool Trans.fsharp b = (if b then "true" else "false") ∧
    translate_bool Trans.python b = translate_raw_str (Value.bool b) ∧
    translate_bool Trans.r b = (if b then "TRUE" else "FALSE") := by
  cases b <;> decide

/-- C8: the R-like variant's `assign` repeatedly removes leading underscore
characters from the name — the dropped prefix is all underscores and the
kept remainder no longer starts with one — before assembling
`<name> = <literal>`; names without a leading underscore pass through
unchanged. -/
theorem r_assign_strips_leading_underscores (name lit : String) :
    (∃ k, name.data = List.replicate k '_' ++ stripUnderscoresAux name.data) ∧
    (∀ rest, stripUnderscoresAux name.data ≠ '_' :: rest) ∧
    assign Trans.r name lit =
      String.mk (stripUnderscoresAux name.data) ++ " = " ++ lit ∧
    (name.data.head? ≠ some '_' → assign Trans.r name lit = name ++ " = " ++ lit) := by
  refine ⟨stripUnderscoresAux_replicate name.data,
    stripUnderscoresAux_no_leading name.data, rfl, ?_⟩
  intro h
  cases name with
  | mk data =>
      cases data with
      | nil => rfl
      | cons c cs =>
          have hc : c ≠ '_' := by
            intro hcc
            exact h (by simp [hcc])
          simp [assign, stripUnderscoresAux, hc]

/-- C8 witness: a name with no leading underscore passes through the R-like
`assign` unchanged. -/
theorem r_assign_strips_leading_underscores_witness :
    ("x" : String).data.head? ≠ some '_' ∧
    assign Trans.r "x" "1" = "x" ++ " = " ++ "1" :=
  ⟨by decide, (r_assign_strips_leading_underscores "x" "1").2.2.2 (by decide)⟩

/-- C9: for a fixed translator, `codify` is deterministic — equal parameter
sets give byte-identical results — and total: every call returns either a
success or one of the declared failure values. -/
theorem codify_deterministic_and_total (t : Trans) (ps qs : List (String × Value))
    (h : ps = qs) :
    codify t ps = codify t qs ∧
    ((∃ s, codify t ps = Except.ok s) ∨ (∃ e, codify t ps = Except.error e)) := by
  subst h
  refine ⟨rfl, ?_⟩
  cases hc : codify t ps with
  | ok s => exact Or.inl ⟨s, rfl⟩
  | error e => exact Or.inr ⟨e, rfl⟩

/-- C9 witness: determinism and totality at a concrete Python-like call. -/
theorem codify_deterministic_and_total_witness :
    ([("a", Value.int 1)] : List (String × Value)) = [("a", Value.int 1)] ∧
    (codify Trans.python [("a", Value.int 1)] = codify Trans.python [("a", Value.int 1)] ∧
     ((∃ s, codify Trans.python [("a", Value.int 1)] = Except.ok s) ∨
      (∃ e, codify Trans.python [("a", Value.int 1)] = Except.error e))) :=
  ⟨rfl, codify_deterministic_and_total Trans.python _ _ rfl⟩

/-- C10: every successful `codify` output ends with a newline, and on the
empty parameter set the output is exactly the `comment("Parameters")` line
followed by a single newline — spelled out for each concrete variant,
including the Matlab-like override. -/
theorem codify_trailing_newline_and_empty_set (t : Trans)
    (ps : List (String × Value)) (s : String) (h : codify t ps = Except.ok s) :
    (∃ p, s = p ++ "\n") ∧
    (ps = [] → ∃ c, comment t "Parameters" = Except.ok c ∧ s = c ++ "\n") ∧
    (codify Trans.python [] = Except.ok "# Parameters\n" ∧
     codify Trans.r [] = Except.ok "# Parameters\n" ∧
     codify Trans.scala [] = Except.ok "// Parameters\n" ∧
     codify Trans.julia [] = Except.ok "# Parameters\n" ∧
     codify Trans.matlab [] = Except.ok "% Parameters\n" ∧
     codify Trans.csharp [] = Except.ok "// Parameters\n" ∧
     codify Trans.fsharp [] = Except.ok "(* Parameters *)\n") := by
  refine ⟨?_, ?_, by decide⟩
  · simp only [codify, bind, Except.bind] at h
    cases hc : comment t "Parameters" with
    | error e => rw [hc] at h; cases h
    | ok c =>
        rw [hc] at h
        cases hb : codifyBody t ps with
        | error e => rw [hb] at h; cases h
        | ok body =>
            rw [hb] at h
            cases h
            rcases codifyBody_empty_or_ends_newline t ps body hb with h0 | ⟨p, hp⟩
            · subst h0
              exact ⟨c, by simp [String.append_assoc, String.append_empty]⟩
            · subst hp
              exact ⟨c ++ ("\n" ++ p), by simp [String.append_assoc]⟩
  · intro hps
    subst hps
    simp only [codify, codifyBody, bind, Except.bind] at h
    cases hc : comment t "Parameters" with
    | error e => rw [hc] at h; cases h
    | ok c =>
        rw [hc] at h
        cases h
        exact ⟨c, rfl, by simp [String.append_assoc, String.append_empty]⟩

/-- C10 witness: the Matlab-like override on the empty parameter set. -/
theorem codify_trailing_newline_and_empty_set_witness :
    codify Trans.matlab [] = Except.ok "% Parameters\n" ∧
    ((∃ p, ("% Parameters\n" : String) = p ++ "\n") ∧
     (([] : List (String × Value)) = [] →
       ∃ c, comment Trans.matlab "Parameters" = Except.ok c ∧
         ("% Parameters\n" : String) = c ++ "\n") ∧
     (codify Trans.python [] = Except.ok "# Parameters\n" ∧
      codify Trans.r [] = Except.ok "# Parameters\n" ∧
      codify Trans.scala [] = Except.ok "// Parameters\n" ∧
      codify Trans.julia [] = Except.ok "# Parameters\n" ∧
      codify Trans.matlab [] = Except.ok "% Parameters\n" ∧
      codify Trans.csharp [] = Except.ok "// Parameters\n" ∧
      codify Trans.fsharp [] = Except.ok "(* Parameters *)\n")) :=
  ⟨by decide,
   codify_trailing_newline_and_empty_set Trans.matlab [] "% Parameters\n" (by decide)⟩

end Papermill
